import Mathlib

/-
Verification of the DCS (Data Coding Scheme) core of python-gsmmodem:
a shallow embedding of src/gsmmodem/dcs.py.

The module has two components:
  * `dcsToCharset` — classifies an 8-bit DCS value into a `Charset` tag;
  * `decodeWithDcs` — dispatches a hex payload to a decoder by that tag.

Python runtime behaviour that matters here is made explicit:
  * the classifier's group-0001 branch compares a name (`bits3t0`) that is
    never bound, which raises `NameError` at run time;
  * the classifier's group-1111 branch computes a `Charset` value but has no
    `return` statement, so the function falls off its end and yields `None`;
  * the dispatcher calls `logger.debug` on a parameter whose default is
    `None`, which raises `AttributeError` when no logger is supplied;
  * `bytes.fromhex` raises `ValueError` on a malformed hex string;
  * Python list indexing raises `IndexError` when out of range.
Fallible evaluation is therefore modelled with `Except PyErr`, and the value
a Python function returns when it falls off its end is `Option.none`.
-/

/-- The `Charset` enum of src/gsmmodem/dcs.py. -/
inductive Charset where
  | GSM_7_BIT
  | EIGHT_BIT_DATA
  | UCS2
  | RESERVED
  | UNDEFINED
deriving DecidableEq, Repr

/-- The Python runtime faults the embedded code can raise. -/
inductive PyErr where
  | nameError
  | attributeError
  | valueError
  | indexError
deriving DecidableEq, Repr

instance {ε α : Type} [DecidableEq ε] [DecidableEq α] : DecidableEq (Except ε α) :=
  fun a b =>
  match a, b with
  | Except.ok x, Except.ok y =>
    if h : x = y then isTrue (by rw [h]) else isFalse (by simp [h])
  | Except.error x, Except.error y =>
    if h : x = y then isTrue (by rw [h]) else isFalse (by simp [h])
  | Except.ok _, Except.error _ => isFalse (by simp)
  | Except.error _, Except.ok _ => isFalse (by simp)

/-- `bits_7t4 = dcs >> 4` of the source: the coding group, bits 7–4. -/
def bits_7t4 (dcs : Nat) : Nat := dcs >>> 4

/-- `bits_3t0 = dcs & 0x0f` of the source: the group subfield, bits 3–0. -/
def bits_3t0 (dcs : Nat) : Nat := dcs &&& 0x0f

/-- The ordered Python list literal used by the table-lookup branches of
`dcsToCharset` (coding groups 0100–0111 and 1001). -/
def charsetTable : List Charset :=
  [Charset.GSM_7_BIT, Charset.EIGHT_BIT_DATA, Charset.UCS2, Charset.RESERVED]

/-- Python list indexing with a non-negative index: `l[i]` raises
`IndexError` when `i` is out of range. -/
def pyIndex (l : List Charset) (i : Nat) : Except PyErr Charset :=
  match l.get? i with
  | some c => Except.ok c
  | none => Except.error PyErr.indexError

/-- Shallow embedding of `dcsToCharset` (src/gsmmodem/dcs.py), branch for
branch. Two branches reproduce run-time defects of the source:
the group-0001 branch evaluates `bits3t0 == 0b0000` where `bits3t0` is a
name never bound (the local is `bits_3t0`), a `NameError`; and the
group-1111 branch computes `bit2` and the corresponding `Charset` value but
never returns it, so the function falls off its end and returns `None`
(modelled as `Except.ok none`). -/
def dcsToCharset (dcs : Nat) : Except PyErr (Option Charset) :=
  if bits_7t4 dcs ≤ 0b0000 then
    Except.ok (some Charset.GSM_7_BIT)
  else if bits_7t4 dcs ≤ 0b0001 then
    Except.error PyErr.nameError
  else if bits_7t4 dcs = 0b0010 ∨ bits_7t4 dcs = 0b0011 then
    Except.ok (some Charset.GSM_7_BIT)
  else if bits_7t4 dcs ≤ 0b0111 then
    (pyIndex charsetTable (bits_3t0 dcs >>> 2)).map some
  else if bits_7t4 dcs = 0b1000 then
    Except.ok (some Charset.RESERVED)
  else if bits_7t4 dcs = 0b1001 then
    (pyIndex charsetTable (bits_3t0 dcs >>> 2)).map some
  else if bits_7t4 dcs ≤ 0b1100 then
    Except.ok (some Charset.RESERVED)
  else if bits_7t4 dcs ≤ 0b1101 then
    Except.ok (some Charset.RESERVED)
  else if bits_7t4 dcs ≤ 0b1110 then
    Except.ok (some Charset.RESERVED)
  else
    Except.ok none

/-- Hexadecimal value of a character, as `bytes.fromhex` accepts digits. -/
def hexVal (c : Char) : Option Nat :=
  let n := c.toNat
  if 48 ≤ n ∧ n ≤ 57 then some (n - 48)
  else if 97 ≤ n ∧ n ≤ 102 then some (n - 87)
  else if 65 ≤ n ∧ n ≤ 70 then some (n - 55)
  else none

/-- ASCII whitespace, which `bytes.fromhex` skips between digit pairs. -/
def isPySpace (c : Char) : Bool :=
  c.toNat = 32 ∨ c.toNat = 9 ∨ c.toNat = 10 ∨ c.toNat = 13 ∨ c.toNat = 11 ∨ c.toNat = 12

/-- Worker for `fromhex`: skip ASCII whitespace, then read exactly two hex
digits per byte; anything else (odd digit count, non-hex character) is a
`ValueError`. -/
def fromhexAux : List Char → Except PyErr (List Nat)
  | [] => Except.ok []
  | c :: rest =>
    if isPySpace c then fromhexAux rest
    else
      match hexVal c, rest with
      | some hi, c2 :: rest2 =>
        match hexVal c2 with
        | some lo => (fromhexAux rest2).map (fun bs => (16 * hi + lo) :: bs)
        | none => Except.error PyErr.valueError
      | _, _ => Except.error PyErr.valueError

/-- Python `bytes.fromhex`: parses a string of hexadecimal digit pairs into a
byte sequence, raising `ValueError` on malformed input. -/
def fromhex (s : String) : Except PyErr (List Nat) := fromhexAux s.data

/-- Python `str` of the value `dcsToCharset` handed to the dispatcher, as it
appears in the trace lines: `str(None)` is `"None"`, `str(Charset.X)` is
`"Charset.X"`. -/
def charsetStr : Option Charset → String
  | none => "None"
  | some Charset.GSM_7_BIT => "Charset.GSM_7_BIT"
  | some Charset.EIGHT_BIT_DATA => "Charset.EIGHT_BIT_DATA"
  | some Charset.UCS2 => "Charset.UCS2"
  | some Charset.RESERVED => "Charset.RESERVED"
  | some Charset.UNDEFINED => "Charset.UNDEFINED"

/-- `logger.debug(msg)` with the emitted lines threaded explicitly: appends
`msg` to the sink when a logger object is present, and raises
`AttributeError` when `logger` is Python `None`. -/
def loggerDebug (logger : Option Unit) (msg : String) (logs : List String) :
    Except PyErr (List String) :=
  match logger with
  | none => Except.error PyErr.attributeError
  | some _ => Except.ok (logs ++ [msg])

/-- The fallback diagnostic line `decodeWithDcs` emits for a `Reserved` or
`Undefined` (or fallen-through) classification. -/
def fallbackMsg : String :=
  "decodeWithDcs(): Unable to determine the encoding from the DCS data, returning the data as if it is 8-bit data anyway."

/-- Shallow embedding of `decodeWithDcs` (src/gsmmodem/dcs.py), statement for
statement. `unpackSeptets`, `decodeGsm7` and `decodeUcs2` live in
gsmmodem/pdu.py, which the spec treats as opaque external collaborators, so
the dispatcher is parameterized over them (`decodeUcs2` receives the byte
sequence and its length, as in the call `decodeUcs2(iter(dataBytes),
len(dataBytes))`). The result pairs the dispatcher's return value with the
list of lines sent to the diagnostic sink. The three unguarded
`logger.debug` trace calls run before the hex payload is parsed, and the
classifier runs before both. -/
def decodeWithDcs (unpackSeptets : List Nat → List Nat) (decodeGsm7 : List Nat → String)
    (decodeUcs2 : List Nat → Nat → String)
    (data : String) (dcs : Nat) (logger : Option Unit) :
    Except PyErr (String × List String) := do
  let charset ← dcsToCharset dcs
  let logs ← loggerDebug logger ("dcs = " ++ toString dcs) []
  let logs ← loggerDebug logger ("charset = " ++ charsetStr charset) logs
  let logs ← loggerDebug logger ("data = " ++ data) logs
  let dataBytes ← fromhex data
  if charset = some Charset.GSM_7_BIT then
    Except.ok (decodeGsm7 (unpackSeptets dataBytes), logs)
  else if charset = some Charset.UCS2 then
    Except.ok (decodeUcs2 dataBytes dataBytes.length, logs)
  else if charset = some Charset.EIGHT_BIT_DATA then
    Except.ok (data, logs)
  else
    let logs := if logger.isSome then logs ++ [fallbackMsg] else logs
    Except.ok (data, logs)

set_option maxRecDepth 8000

/-- Purity of the embedded classifier: in any sequence of interleaved
invocations, the outcome of each call depends only on the DCS value it
queries, never on the other calls in the sequence or on their order. -/
theorem dcsToCharset_interleaved (qs : List Nat) (i j : Nat)
    (hi : i < qs.length) (hj : j < qs.length)
    (h : qs.get ⟨i, hi⟩ = qs.get ⟨j, hj⟩) :
    (qs.map dcsToCharset).get ⟨i, by simpa using hi⟩ =
      (qs.map dcsToCharset).get ⟨j, by simpa using hj⟩ := by
  simp only [List.get_eq_getElem, List.getElem_map]
  exact congrArg dcsToCharset (by simpa only [List.get_eq_getElem] using h)

/-- C1: the claim states that `dcsToCharset` returns one of the five tags for
all 256 DCS values and never fails or yields no result; on the code as
written this is false: DCS 0x10 (coding group 0001) raises `NameError`
through the unbound name `bits3t0`, and DCS 0xF0 (coding group 1111) falls
off the end of the function and returns `None` instead of a tag. -/
theorem dcsToCharset_not_total_C1 :
    dcsToCharset 0x10 = Except.error PyErr.nameError ∧
    dcsToCharset 0xF0 = Except.ok none := ⟨rfl, rfl⟩

/-- C2: the claim states that group-1111 DCS values resolve by bit 2 of the
subfield (0xF4 → EightBitData, 0xF0 → Gsm7Bit); the source computes that
value but never returns it, so every group-1111 classification yields
Python `None` instead. -/
theorem dcsToCharset_group15_C2 :
    dcsToCharset 0xF4 = Except.ok none ∧ dcsToCharset 0xF0 = Except.ok none ∧
    (∀ dcs : Nat, dcs < 256 → bits_7t4 dcs = 0b1111 →
      dcsToCharset dcs = Except.ok none) :=
  ⟨rfl, rfl, by decide⟩

/-- C3: the claim states that group-0001 DCS values classify as Gsm7Bit
(sub 0000), Ucs2 (sub 0001) or Undefined (other subs); the source's
group-0001 branch compares the unbound name `bits3t0`, so every one of
these calls raises `NameError` instead of returning a tag. -/
theorem dcsToCharset_group1_C3 :
    dcsToCharset 0x10 = Except.error PyErr.nameError ∧
    dcsToCharset 0x11 = Except.error PyErr.nameError ∧
    dcsToCharset 0x12 = Except.error PyErr.nameError ∧
    (∀ dcs : Nat, dcs < 256 → bits_7t4 dcs = 0b0001 →
      dcsToCharset dcs = Except.error PyErr.nameError) :=
  ⟨rfl, rfl, rfl, by decide⟩

/-- C4: the claim states that a malformed payload fails with
`MalformedPayload` (`ValueError` from `bytes.fromhex`) regardless of DCS
value; on the code the hex parse is pre-empted for DCS 0x10 by the
classifier's `NameError`, and, when no diagnostic sink is supplied, by
`AttributeError` from the unguarded `logger.debug` calls. With a sink and a
faultless DCS the `ValueError` is indeed surfaced (first conjunct). -/
theorem decodeWithDcs_malformed_C4 :
    ∀ (us : List Nat → List Nat) (g7 : List Nat → String)
      (u2 : List Nat → Nat → String),
      decodeWithDcs us g7 u2 "0" 0x00 (some ()) = Except.error PyErr.valueError ∧
      decodeWithDcs us g7 u2 "0" 0x10 (some ()) = Except.error PyErr.nameError ∧
      decodeWithDcs us g7 u2 "0" 0x00 none = Except.error PyErr.attributeError :=
  fun _ _ _ => ⟨rfl, rfl, rfl⟩

/-- C5: the claim states that every call whose DCS classifies as
EightBitData, Reserved or Undefined returns the payload unchanged, with
exactly one fallback diagnostic in the Reserved/Undefined cases; a call
without a diagnostic sink instead faults with `AttributeError` before any
result is produced (first conjunct). With a sink, the raw pass-through and
the single fallback line do hold, as the remaining conjuncts evaluate. -/
theorem decodeWithDcs_reserved_C5 :
    ∀ (us : List Nat → List Nat) (g7 : List Nat → String)
      (u2 : List Nat → Nat → String),
      decodeWithDcs us g7 u2 "00" 0x80 none = Except.error PyErr.attributeError ∧
      decodeWithDcs us g7 u2 "00" 0x80 (some ()) =
        Except.ok ("00",
          ["dcs = 128", "charset = Charset.RESERVED", "data = 00", fallbackMsg]) ∧
      decodeWithDcs us g7 u2 "00" 0x44 (some ()) =
        Except.ok ("00",
          ["dcs = 68", "charset = Charset.EIGHT_BIT_DATA", "data = 00"]) :=
  fun _ _ _ => ⟨rfl, rfl, rfl⟩

/-- C6: the claim states the diagnostic sink is optional and a call without
one does not fault; the source's three unguarded `logger.debug` calls make
every sinkless call raise `AttributeError` (here at payload "00", DCS 0x00),
while the same call with a sink proceeds to the decoder. -/
theorem decodeWithDcs_sinkless_C6 :
    ∀ (us : List Nat → List Nat) (g7 : List Nat → String)
      (u2 : List Nat → Nat → String),
      decodeWithDcs us g7 u2 "00" 0x00 none = Except.error PyErr.attributeError ∧
      decodeWithDcs us g7 u2 "00" 0x00 (some ()) =
        Except.ok (g7 (us [0]),
          ["dcs = 0", "charset = Charset.GSM_7_BIT", "data = 00"]) :=
  fun _ _ _ => ⟨rfl, rfl⟩

/-- C7: for every 8-bit DCS value whose coding group is 0100–0111 or 1001,
the classifier returns the element of the ordered table
[Gsm7Bit, EightBitData, Ucs2, Reserved] selected by bits 3–2 of the
subfield, and the result is unchanged when bits 1–0 are cleared, so those
bits are ignored. -/
theorem dcsToCharset_table_C7 :
    ∀ dcs : Nat, dcs < 256 →
      ((4 ≤ bits_7t4 dcs ∧ bits_7t4 dcs ≤ 7) ∨ bits_7t4 dcs = 9) →
      dcsToCharset dcs = Except.ok (charsetTable.get? (bits_3t0 dcs >>> 2)) ∧
      dcsToCharset dcs = dcsToCharset ((dcs >>> 2) <<< 2) := by decide

/-- C7 witness: DCS 0x48 (group 0100, subfield bits 3–2 = 10, index 2)
selects the third table entry, Ucs2. -/
theorem dcsToCharset_table_C7_witness :
    (dcsToCharset 0x48 = Except.ok (charsetTable.get? (bits_3t0 0x48 >>> 2)) ∧
      dcsToCharset 0x48 = dcsToCharset ((0x48 >>> 2) <<< 2)) ∧
    dcsToCharset 0x48 = Except.ok (some Charset.UCS2) :=
  ⟨dcsToCharset_table_C7 0x48 (by decide) (Or.inl (by decide)), rfl⟩

/-- C8: coding groups 0000, 0010 and 0011 always classify as Gsm7Bit, and
coding groups 1000, 1010, 1011, 1100, 1101 and 1110 always classify as
Reserved, whatever the subfield bits hold. -/
theorem dcsToCharset_fixed_groups_C8 :
    ∀ dcs : Nat, dcs < 256 →
      ((bits_7t4 dcs = 0 ∨ bits_7t4 dcs = 2 ∨ bits_7t4 dcs = 3) →
        dcsToCharset dcs = Except.ok (some Charset.GSM_7_BIT)) ∧
      ((bits_7t4 dcs = 8 ∨ bits_7t4 dcs = 10 ∨ bits_7t4 dcs = 11 ∨
          bits_7t4 dcs = 12 ∨ bits_7t4 dcs = 13 ∨ bits_7t4 dcs = 14) →
        dcsToCharset dcs = Except.ok (some Charset.RESERVED)) := by decide

/-- C8 witness: DCS 0x00 (group 0000) classifies as Gsm7Bit and DCS 0x80
(group 1000) classifies as Reserved. -/
theorem dcsToCharset_fixed_groups_C8_witness :
    dcsToCharset 0x00 = Except.ok (some Charset.GSM_7_BIT) ∧
    dcsToCharset 0x80 = Except.ok (some Charset.RESERVED) :=
  ⟨(dcsToCharset_fixed_groups_C8 0x00 (by decide)).1 (by decide),
    (dcsToCharset_fixed_groups_C8 0x80 (by decide)).2 (by decide)⟩

/-- C9: the claim states that any two invocations on the same DCS value
yield the same Charset tag; at DCS 0x10 no invocation yields a tag at all —
the call raises `NameError` — so the claim fails there. Determinism itself
holds of the embedded classifier: it is a pure function of its argument
(`dcsToCharset_interleaved`). -/
theorem dcsToCharset_no_tag_C9 :
    ¬ ∃ c : Charset, dcsToCharset 0x10 = Except.ok (some c) :=
  fun ⟨_, h⟩ => Except.noConfusion h

/-- C10 (implicit): for every 8-bit DCS value, the table index
`bits_3t0 dcs >>> 2` used by the lookup branches is below the four-element
table's length, so the Python list indexing there can never raise
`IndexError`. -/
theorem charsetTable_index_C10 :
    ∀ dcs : Nat, dcs < 256 →
      bits_3t0 dcs >>> 2 < charsetTable.length ∧
      pyIndex charsetTable (bits_3t0 dcs >>> 2) ≠ Except.error PyErr.indexError :=
  by decide

/-- C10 witness: at DCS 0x4F (subfield 1111, the largest possible index) the
lookup index is 3, below the table length 4, and the lookup succeeds. -/
theorem charsetTable_index_C10_witness :
    bits_3t0 0x4f >>> 2 < charsetTable.length ∧
    pyIndex charsetTable (bits_3t0 0x4f >>> 2) ≠ Except.error PyErr.indexError :=
  charsetTable_index_C10 0x4f (by decide)
